import Mathlib

/-!
Shallow embedding of `src/react/ConditionLayoutProduct.tsx` (condition-layout).

The file defines the Fact Bag (`ContextValues`), the handler registry
(`HANDLERS.*`) and the readiness gate of the `ConditionLayoutProduct`
component, translated directly from the TypeScript source, and proves the
frozen claims about them.

Modelling conventions for the JavaScript runtime:
* identifiers may arrive as strings or numbers upstream, modelled by `Ident`;
  the `String(x)` coercion used by the code is `idStr` / `jsStringOf`;
* a field that may be `undefined`/`null` at runtime is an `Option`;
  `none` is `undefined`; the TypeScript cast `as NoUndefinedField<...>` is a
  type-level assertion with no runtime effect, so the embedded bag keeps its
  `Option` fields;
* a handler whose JS body can only produce a boolean returns `Bool`; one whose
  optional chaining can also produce `undefined` returns `Option Bool`
  (`none` = `undefined`); `hasBestPrice`, whose destructuring can throw a
  `TypeError`, returns `Except Unit Bool` (`Except.error ()` = thrown).
-/

/-- A JavaScript identifier value: a string or a number (integers suffice for
the identifiers the component compares). -/
inductive Ident where
  | str (s : String)
  | num (n : Int)
deriving DecidableEq

/-- The JS coercion `String(x)` on an identifier value. -/
def idStr : Ident → String
  | .str s => s
  | .num n => toString n

/-- JS strict equality `===` on identifier values: values of different runtime
types are never equal, with no coercion. -/
def identEq : Ident → Ident → Bool
  | .str a, .str b => a == b
  | .num a, .num b => a == b
  | _, _ => false

/-- The JS coercion `String(x)` on a possibly-`undefined` identifier. -/
def jsStringOf : Option Ident → String
  | none => "undefined"
  | some i => idStr i

/-- An `{ id }` record, as found in `productClusters`, `clusterHighlights`
and `categoryTree`. -/
structure IdRecord where
  id : Ident
deriving DecidableEq

/-- A `{ name, values }` record of `specificationProperties`. The `name` may be
a non-string value at runtime, which the strict comparison in the handler can
observe. -/
structure SpecProperty where
  name : Ident
  values : List String
deriving DecidableEq

/-- The commercial offer of a seller: `{ ListPrice, Price, AvailableQuantity }`. -/
structure CommertialOffer where
  ListPrice : Int
  Price : Int
  AvailableQuantity : Int
deriving DecidableEq

/-- A seller offer record. -/
structure Seller where
  sellerId : String
  sellerDefault : Bool
  commertialOffer : CommertialOffer
deriving DecidableEq

/-- The Fact Bag (`ContextValues` in the source). Every field that can be
`undefined` at runtime is an `Option`; `areAllVariationsSelected` is always a
boolean because the component destructures it with a `= false` default. -/
structure ContextValues where
  productId : Option Ident
  categoryId : Option Ident
  brandId : Option Ident
  productClusters : Option (List IdRecord)
  clusterHighlights : Option (List IdRecord)
  categoryTree : Option (List IdRecord)
  selectedItemId : Option Ident
  specificationProperties : Option (List SpecProperty)
  areAllVariationsSelected : Bool
  sellers : Option (List Seller)
deriving DecidableEq

/-- The `{ id }` argument shape of the identifier and membership handlers. -/
structure IdArgs where
  id : Ident
deriving DecidableEq

/-- The `{ name, value? }` argument of `specificationProperties`. -/
structure SpecArgs where
  name : Ident
  value : Option Ident
deriving DecidableEq

/-- The `{ quantity }` argument of `hasMoreSellersThan`. -/
structure QuantityArgs where
  quantity : Int
deriving DecidableEq

/-- The `{ value }` argument of `hasBestPrice` (the whole record is optional). -/
structure BestPriceArgs where
  value : Bool
deriving DecidableEq

/-- The `{ ids }` argument of `sellerId`. -/
structure SellerIdArgs where
  ids : List String
deriving DecidableEq

namespace HANDLERS

/-- Handler `productId`: `String(values.productId) === String(args?.id)`. -/
def productId (values : ContextValues) (args : IdArgs) : Bool :=
  jsStringOf values.productId == idStr args.id

/-- Handler `categoryId`: `String(values.categoryId) === String(args?.id)`. -/
def categoryId (values : ContextValues) (args : IdArgs) : Bool :=
  jsStringOf values.categoryId == idStr args.id

/-- Handler `brandId`: `String(values.brandId) === String(args?.id)`. -/
def brandId (values : ContextValues) (args : IdArgs) : Bool :=
  jsStringOf values.brandId == idStr args.id

/-- Handler `selectedItemId`: `String(values.selectedItemId) === String(args?.id)`. -/
def selectedItemId (values : ContextValues) (args : IdArgs) : Bool :=
  jsStringOf values.selectedItemId == idStr args.id

/-- Handler `areAllVariationsSelected`: returns the fact unchanged. -/
def areAllVariationsSelected (values : ContextValues) : Bool :=
  values.areAllVariationsSelected

/-- Handler `productClusters`:
`Boolean(values.productClusters?.find(({id}) => String(id) === String(args?.id)))`.
When the collection is `undefined`, `Boolean(undefined)` is `false`. -/
def productClusters (values : ContextValues) (args : IdArgs) : Bool :=
  match values.productClusters with
  | none => false
  | some l => (l.find? fun r => idStr r.id == idStr args.id).isSome

/-- Handler `productClusterHighlights`:
`values.clusterHighlights?.some(({id}) => String(id) === String(args?.id))`.
There is no `Boolean(...)` wrapper, so an absent collection propagates
`undefined` (`none`) as the returned value. -/
def productClusterHighlights (values : ContextValues) (args : IdArgs) :
    Option Bool :=
  match values.clusterHighlights with
  | none => none
  | some l => some (l.any fun r => idStr r.id == idStr args.id)

/-- Handler `categoryTree`:
`Boolean(values?.categoryTree?.find(({id}) => String(id) === String(args?.id)))`. -/
def categoryTree (values : ContextValues) (args : IdArgs) : Bool :=
  match values.categoryTree with
  | none => false
  | some l => (l.find? fun r => idStr r.id == idStr args.id).isSome

/-- Handler `specificationProperties`: find the property whose `name` is
strictly (`===`) equal to `args?.name`; `false` when none; `Boolean(spec)`
(hence `true`) when `args?.value == null`; otherwise
`spec.values.includes(String(args?.value))`. -/
def specificationProperties (values : ContextValues) (args : SpecArgs) : Bool :=
  let specification : Option SpecProperty :=
    match values.specificationProperties with
    | none => none
    | some props => props.find? fun p => identEq p.name args.name
  match specification with
  | none => false
  | some spec =>
    match args.value with
    | none => true
    | some v => spec.values.contains (idStr v)

/-- Handler `isProductAvailable`:
`Boolean(sellers?.some((seller) => seller.commertialOffer.AvailableQuantity > 0))`. -/
def isProductAvailable (values : ContextValues) : Bool :=
  match values.sellers with
  | none => false
  | some sellers => sellers.any fun s => s.commertialOffer.AvailableQuantity > 0

/-- Handler `hasMoreSellersThan`:
`sellers?.filter(availability)?.length > args?.quantity`. When `sellers` is
`undefined` the comparison is `undefined > quantity`, which is `false` in JS. -/
def hasMoreSellersThan (values : ContextValues) (args : QuantityArgs) : Bool :=
  match values.sellers with
  | none => false
  | some sellers =>
    let productAvailable :=
      sellers.filter fun s => s.commertialOffer.AvailableQuantity > 0
    (productAvailable.length : Int) > args.quantity

/-- Handler `hasBestPrice`: destructures
`values.sellers?.find(({sellerDefault}) => sellerDefault) ?? values.sellers[0]`.
When `sellers` is `undefined`, the fallback `values.sellers[0]` throws a
`TypeError`; when the list is empty, `values.sellers[0]` is `undefined` and
the destructuring of `commertialOffer` throws. Otherwise the result is the
boolean `(ListPrice !== Price) === (args?.value ?? true)`. -/
def hasBestPrice (values : ContextValues) (args : Option BestPriceArgs) :
    Except Unit Bool :=
  match values.sellers with
  | none => Except.error ()
  | some sellers =>
    match (sellers.find? fun s => s.sellerDefault).orElse fun _ => sellers.head? with
    | none => Except.error ()
    | some s =>
      let expected := (args.map fun a => a.value).getD true
      let hasDiscount := s.commertialOffer.ListPrice != s.commertialOffer.Price
      Except.ok (hasDiscount == expected)

/-- Handler `sellerId`:
`sellers?.filter(available)?.some((s) => args?.ids?.includes(s.sellerId))`.
An absent `sellers` propagates `undefined` (`none`) as the returned value. -/
def sellerId (values : ContextValues) (args : SellerIdArgs) : Option Bool :=
  match values.sellers with
  | none => none
  | some sellers =>
    let availableSellers :=
      sellers.filter fun s => s.commertialOffer.AvailableQuantity > 0
    some (availableSellers.any fun s => args.ids.contains s.sellerId)

end HANDLERS

/-- The `skuSelector` slice of the product context; its
`areAllVariationsSelected` field may be absent upstream. -/
structure SkuSelectorCtx where
  areAllVariationsSelected : Option Bool
deriving DecidableEq

/-- The `product` slice of the product context, with every field possibly
absent at runtime. -/
structure ProductData where
  productId : Option Ident
  categoryId : Option Ident
  brandId : Option Ident
  productClusters : Option (List IdRecord)
  clusterHighlights : Option (List IdRecord)
  categoryTree : Option (List IdRecord)
  properties : Option (List SpecProperty)
deriving DecidableEq

/-- The `selectedItem` slice of the product context. -/
structure ItemData where
  itemId : Option Ident
  sellers : Option (List Seller)
deriving DecidableEq

/-- The value returned by `useProduct()` (when not `null`/`undefined`). -/
structure ProductCtx where
  product : Option ProductData
  selectedItem : Option ItemData
  skuSelector : Option SkuSelectorCtx
deriving DecidableEq

/-- The empty object `{}` that `useProduct() ?? {}` falls back to. -/
def emptyCtx : ProductCtx :=
  { product := none, selectedItem := none, skuSelector := none }

/-- The component body before the gate: destructure
`useProduct() ?? {}`, `product ?? {}` and `selectedItem ?? {}` and build the
memoized bag. The `as NoUndefinedField` cast has no runtime effect, so absent
fields stay `none`; `areAllVariationsSelected` alone gets a destructuring
default of `false`. -/
def normalizeBag (ctx : Option ProductCtx) : ContextValues :=
  let c := ctx.getD emptyCtx
  { productId := c.product.bind fun p => p.productId
    categoryId := c.product.bind fun p => p.categoryId
    brandId := c.product.bind fun p => p.brandId
    productClusters := c.product.bind fun p => p.productClusters
    clusterHighlights := c.product.bind fun p => p.clusterHighlights
    categoryTree := c.product.bind fun p => p.categoryTree
    selectedItemId := c.selectedItem.bind fun i => i.itemId
    specificationProperties := c.product.bind fun p => p.properties
    areAllVariationsSelected :=
      ((c.skuSelector.bind fun s => s.areAllVariationsSelected).getD false)
    sellers := c.selectedItem.bind fun i => i.sellers }

/-- The `ConditionLayoutProduct` component: build the bag, then the readiness
gate `if (values.selectedItemId == null || values.productId == null) return
null`. The result is `none` when the component renders `null`, and
`some values` when it renders `ConditionLayout` with that bag (the evaluation
engine is only ever invoked on a `some` result). -/
def conditionLayoutProduct (ctx : Option ProductCtx) : Option ContextValues :=
  let values := normalizeBag ctx
  if values.selectedItemId.isNone || values.productId.isNone then none
  else some values

/-! ## Concrete inputs used by witnesses and counterexamples -/

/-- A Fact Bag that passed the gate but whose optional sub-collections are all
absent upstream (they remain `undefined` at runtime). -/
def bagAbsent : ContextValues :=
  { productId := some (Ident.str "p1"), categoryId := some (Ident.str "c1"),
    brandId := some (Ident.str "b1"), productClusters := none,
    clusterHighlights := none, categoryTree := none,
    selectedItemId := some (Ident.str "i1"), specificationProperties := none,
    areAllVariationsSelected := false, sellers := none }

/-- A seller with no discount, not the default, id `s1`. -/
def sellerS1 : Seller :=
  { sellerId := "s1", sellerDefault := false,
    commertialOffer := { ListPrice := 100, Price := 100, AvailableQuantity := 2 } }

/-- The default seller, with a discount (ListPrice 100, Price 80). -/
def sellerS2 : Seller :=
  { sellerId := "s2", sellerDefault := true,
    commertialOffer := { ListPrice := 100, Price := 80, AvailableQuantity := 1 } }

/-- A third available seller with no discount. -/
def sellerS3 : Seller :=
  { sellerId := "s3", sellerDefault := false,
    commertialOffer := { ListPrice := 50, Price := 50, AvailableQuantity := 5 } }

/-- Three available sellers. -/
def sellersThree : List Seller := [sellerS1, sellerS2, sellerS3]

/-- A fully populated Fact Bag: numeric product id, one specification property
named `color`, three available sellers. -/
def bagColor : ContextValues :=
  { productId := some (Ident.num 123), categoryId := some (Ident.str "c1"),
    brandId := some (Ident.str "b1"), productClusters := some [],
    clusterHighlights := some [], categoryTree := some [],
    selectedItemId := some (Ident.str "i1"),
    specificationProperties :=
      some [{ name := Ident.str "color", values := ["red", "5"] }],
    areAllVariationsSelected := true, sellers := some sellersThree }

/-- A Fact Bag whose sellers list is present but empty. -/
def bagEmptySellers : ContextValues :=
  { productId := some (Ident.str "p1"), categoryId := some (Ident.str "c1"),
    brandId := some (Ident.str "b1"), productClusters := some [],
    clusterHighlights := some [], categoryTree := some [],
    selectedItemId := some (Ident.str "i1"), specificationProperties := some [],
    areAllVariationsSelected := false, sellers := some [] }

/-- A Fact Bag whose only specification property has the number `7` as its
name (a non-string name, as loosely-typed upstream data can produce). -/
def bagNumericName : ContextValues :=
  { bagEmptySellers with
    specificationProperties := some [{ name := Ident.num 7, values := ["x"] }] }

/-- Upstream product slice carrying only a `productId`. -/
def productOnlyId : ProductData :=
  { productId := some (Ident.str "p1"), categoryId := none, brandId := none,
    productClusters := none, clusterHighlights := none, categoryTree := none,
    properties := none }

/-- Upstream selected item carrying only an `itemId`. -/
def itemOnlyId : ItemData :=
  { itemId := some (Ident.str "i1"), sellers := none }

/-- A product context where only the two gating identifiers are present and
every other upstream field is absent. -/
def ctxWithOnlyIds : ProductCtx :=
  { product := some productOnlyId, selectedItem := some itemOnlyId,
    skuSelector := none }

/-! ## Helper lemmas -/

/-- JS strict equality on identifier values is reflexive. -/
theorem identEq_refl (i : Ident) : identEq i i = true := by
  cases i <;> simp [identEq]

/-- If the component renders the layout, the bag it passes is exactly the
normalized bag and both gating identifiers are present. -/
theorem conditionLayoutProduct_eq_some {ctx : Option ProductCtx}
    {v : ContextValues} (hv : conditionLayoutProduct ctx = some v) :
    v = normalizeBag ctx ∧ v.productId ≠ none ∧ v.selectedItemId ≠ none := by
  simp only [conditionLayoutProduct] at hv
  split at hv
  · exact absurd hv (by simp)
  · next h =>
    cases hv
    simp only [Bool.or_eq_true, Option.isNone_iff_eq_none, not_or] at h
    exact ⟨rfl, h.2, h.1⟩

/-! ## Claims -/

/-- C1: whenever the normalized Fact Bag is missing `productId` or
`selectedItemId`, the component renders `null` (no decision), and whenever it
does render the layout (so the evaluation engine can run), the Fact Bag it
passes has both identifiers present — the engine is never invoked with a
partial bag. -/
theorem c1_readiness_gate (ctx : Option ProductCtx) :
    (((normalizeBag ctx).productId = none ∨
        (normalizeBag ctx).selectedItemId = none) →
      conditionLayoutProduct ctx = none) ∧
    (∀ v, conditionLayoutProduct ctx = some v →
      v.productId ≠ none ∧ v.selectedItemId ≠ none) := by
  constructor
  · intro h
    rcases h with h | h <;> simp [conditionLayoutProduct, h]
  · intro v hv
    exact (conditionLayoutProduct_eq_some hv).2

/-- Witness for C1 at the concrete context `none` (the `useProduct()` hook
returned nothing, so both identifiers are missing). -/
theorem c1_readiness_gate_witness : conditionLayoutProduct none = none :=
  (c1_readiness_gate none).1 (Or.inl rfl)

/-- C9 counterexample: on `ctxWithOnlyIds` the readiness gate passes, yet in
the bag handed to the layout the fields absent upstream (`sellers`,
`productClusters`, `clusterHighlights`, `specificationProperties`) are still
`undefined` — normalization did not replace them with empty collections. -/
theorem c9_counterexample :
    conditionLayoutProduct (some ctxWithOnlyIds) =
      some (normalizeBag (some ctxWithOnlyIds)) ∧
    (normalizeBag (some ctxWithOnlyIds)).sellers = none ∧
    (normalizeBag (some ctxWithOnlyIds)).productClusters = none ∧
    (normalizeBag (some ctxWithOnlyIds)).clusterHighlights = none ∧
    (normalizeBag (some ctxWithOnlyIds)).specificationProperties = none :=
  ⟨rfl, rfl, rfl, rfl, rfl⟩

/-- C9 (amended): after the gate passes, `productId` and `selectedItemId` are
present and `areAllVariationsSelected` is a defined boolean (defaulting to
`false` when the sku selector is absent upstream); the remaining fields are
passed through unreplaced — e.g. `sellers` is exactly the upstream value and
may still be `undefined`. -/
theorem c9_gate_guarantees (ctx : Option ProductCtx) (v : ContextValues)
    (hv : conditionLayoutProduct ctx = some v) :
    v = normalizeBag ctx ∧
    v.productId ≠ none ∧ v.selectedItemId ≠ none ∧
    ((ctx.getD emptyCtx).skuSelector = none →
      v.areAllVariationsSelected = false) ∧
    v.sellers = ((ctx.getD emptyCtx).selectedItem.bind fun i => i.sellers) := by
  obtain ⟨hveq, hp, hs⟩ := conditionLayoutProduct_eq_some hv
  subst hveq
  refine ⟨rfl, hp, hs, fun hsku => ?_, rfl⟩
  simp [normalizeBag, hsku]

/-- Witness for C9 (amended) at the concrete context `ctxWithOnlyIds`. -/
theorem c9_gate_guarantees_witness :
    normalizeBag (some ctxWithOnlyIds) = normalizeBag (some ctxWithOnlyIds) ∧
    (normalizeBag (some ctxWithOnlyIds)).productId ≠ none ∧
    (normalizeBag (some ctxWithOnlyIds)).selectedItemId ≠ none ∧
    (((some ctxWithOnlyIds).getD emptyCtx).skuSelector = none →
      (normalizeBag (some ctxWithOnlyIds)).areAllVariationsSelected = false) ∧
    (normalizeBag (some ctxWithOnlyIds)).sellers =
      (((some ctxWithOnlyIds).getD emptyCtx).selectedItem.bind fun i => i.sellers) :=
  c9_gate_guarantees (some ctxWithOnlyIds) (normalizeBag (some ctxWithOnlyIds)) rfl

/-- C2 counterexample: with `clusterHighlights` absent, the
`productClusterHighlights` handler returns `undefined` (`none`), not the
boolean `false` the claim requires. -/
theorem c2_counterexample :
    HANDLERS.productClusterHighlights bagAbsent { id := Ident.str "a" } = none ∧
    HANDLERS.productClusterHighlights bagAbsent { id := Ident.str "a" } ≠
      some false :=
  ⟨rfl, by decide⟩

/-- C2 (amended): when the optional sub-collection a handler queries is
absent, `productClusters`, `categoryTree`, `specificationProperties`,
`isProductAvailable` and `hasMoreSellersThan` return the boolean `false`,
while `productClusterHighlights` and `sellerId` return `undefined` (falsy but
not `false`), and `hasBestPrice` throws a `TypeError`; no other handler can
throw. -/
theorem c2_absent_subdata_behavior (values : ContextValues) (a : IdArgs)
    (sa : SpecArgs) (qa : QuantityArgs) (ba : Option BestPriceArgs)
    (ia : SellerIdArgs) :
    (values.productClusters = none →
      HANDLERS.productClusters values a = false) ∧
    (values.clusterHighlights = none →
      HANDLERS.productClusterHighlights values a = none) ∧
    (values.categoryTree = none → HANDLERS.categoryTree values a = false) ∧
    (values.specificationProperties = none →
      HANDLERS.specificationProperties values sa = false) ∧
    (values.sellers = none → HANDLERS.isProductAvailable values = false) ∧
    (values.sellers = none → HANDLERS.hasMoreSellersThan values qa = false) ∧
    (values.sellers = none → HANDLERS.sellerId values ia = none) ∧
    (values.sellers = none →
      HANDLERS.hasBestPrice values ba = Except.error ()) := by
  refine ⟨?_, ?_, ?_, ?_, ?_, ?_, ?_, ?_⟩ <;> intro h <;>
    simp [HANDLERS.productClusters, HANDLERS.productClusterHighlights,
      HANDLERS.categoryTree, HANDLERS.specificationProperties,
      HANDLERS.isProductAvailable, HANDLERS.hasMoreSellersThan,
      HANDLERS.sellerId, HANDLERS.hasBestPrice, h]

/-- Witness for C2 (amended) on the concrete bag `bagAbsent`. -/
theorem c2_absent_subdata_behavior_witness :
    HANDLERS.productClusters bagAbsent { id := Ident.str "x" } = false ∧
    HANDLERS.productClusterHighlights bagAbsent { id := Ident.str "x" } = none ∧
    HANDLERS.categoryTree bagAbsent { id := Ident.str "x" } = false ∧
    HANDLERS.specificationProperties bagAbsent
      { name := Ident.str "n", value := none } = false ∧
    HANDLERS.isProductAvailable bagAbsent = false ∧
    HANDLERS.hasMoreSellersThan bagAbsent { quantity := 0 } = false ∧
    HANDLERS.sellerId bagAbsent { ids := ["s1"] } = none ∧
    HANDLERS.hasBestPrice bagAbsent none = Except.error () := by
  have t := c2_absent_subdata_behavior bagAbsent { id := Ident.str "x" }
    { name := Ident.str "n", value := none } { quantity := 0 } none
    { ids := ["s1"] }
  exact ⟨t.1 rfl, t.2.1 rfl, t.2.2.1 rfl, t.2.2.2.1 rfl, t.2.2.2.2.1 rfl,
    t.2.2.2.2.2.1 rfl, t.2.2.2.2.2.2.1 rfl, t.2.2.2.2.2.2.2 rfl⟩

/-- C3: on the failing input — a sellers list that is present but empty —
`hasBestPrice` throws a `TypeError` (it destructures
`values.sellers[0]`, which is `undefined`) instead of returning `false` as
the specification defines; the argument value does not matter. -/
theorem c3_hasBestPrice_empty_sellers_throws :
    HANDLERS.hasBestPrice bagEmptySellers none = Except.error () ∧
    HANDLERS.hasBestPrice bagEmptySellers (some { value := true }) =
      Except.error () ∧
    HANDLERS.hasBestPrice bagEmptySellers (some { value := false }) =
      Except.error () :=
  ⟨rfl, rfl, rfl⟩

/-- C4: on a Fact Bag with a non-empty sellers list, `hasBestPrice` selects
the (first) seller marked `sellerDefault`, or the first seller when none is
marked default, and returns the boolean
`(ListPrice != Price) == v` for that seller, where `v` is the argument value
defaulting to `true` when omitted. -/
theorem c4_hasBestPrice_nonempty (values : ContextValues)
    (sellers : List Seller) (args : Option BestPriceArgs)
    (hs : values.sellers = some sellers) (hne : sellers ≠ []) :
    ∃ s : Seller,
      ((sellers.find? fun x => x.sellerDefault) = some s ∨
        ((sellers.find? fun x => x.sellerDefault) = none ∧
          sellers.head? = some s)) ∧
      HANDLERS.hasBestPrice values args =
        Except.ok ((s.commertialOffer.ListPrice != s.commertialOffer.Price) ==
          ((args.map fun a => a.value).getD true)) := by
  unfold HANDLERS.hasBestPrice
  rw [hs]
  cases hf : sellers.find? fun x => x.sellerDefault with
  | some s =>
    refine ⟨s, Or.inl rfl, ?_⟩
    simp [Option.orElse, hf]
  | none =>
    cases sellers with
    | nil => exact absurd rfl hne
    | cons a l =>
      refine ⟨a, Or.inr ⟨rfl, rfl⟩, ?_⟩
      simp [Option.orElse, hf]

/-- Witness for C4 on `bagColor`: the default seller `sellerS2` has
ListPrice 100 and Price 80, so `hasBestPrice` with no argument is `true`. -/
theorem c4_hasBestPrice_nonempty_witness :
    ∃ s : Seller,
      ((sellersThree.find? fun x => x.sellerDefault) = some s ∨
        ((sellersThree.find? fun x => x.sellerDefault) = none ∧
          sellersThree.head? = some s)) ∧
      HANDLERS.hasBestPrice bagColor none =
        Except.ok ((s.commertialOffer.ListPrice != s.commertialOffer.Price) ==
          (((none : Option BestPriceArgs)).map fun a => a.value).getD true) :=
  c4_hasBestPrice_nonempty bagColor sellersThree none rfl (by decide)

/-- C5: the `productId`, `categoryId`, `brandId` and `selectedItemId` handlers
return `true` iff the `String()` form of the fact equals the `String()` form
of the argument; consequently they are reflexive on a present fact, and a
numeric fact matches the same identifier given as a string. -/
theorem c5_identifier_handlers (values : ContextValues) (a : IdArgs)
    (i : Ident) (n : Int) :
    (HANDLERS.productId values a = true ↔
      jsStringOf values.productId = idStr a.id) ∧
    (HANDLERS.categoryId values a = true ↔
      jsStringOf values.categoryId = idStr a.id) ∧
    (HANDLERS.brandId values a = true ↔
      jsStringOf values.brandId = idStr a.id) ∧
    (HANDLERS.selectedItemId values a = true ↔
      jsStringOf values.selectedItemId = idStr a.id) ∧
    (values.productId = some i →
      HANDLERS.productId values { id := i } = true) ∧
    (values.categoryId = some i →
      HANDLERS.categoryId values { id := i } = true) ∧
    (values.brandId = some i → HANDLERS.brandId values { id := i } = true) ∧
    (values.selectedItemId = some i →
      HANDLERS.selectedItemId values { id := i } = true) ∧
    (values.productId = some (Ident.num n) →
      HANDLERS.productId values { id := Ident.str (toString n) } = true) := by
  refine ⟨?_, ?_, ?_, ?_, fun h => ?_, fun h => ?_, fun h => ?_, fun h => ?_,
    fun h => ?_⟩
  · simp [HANDLERS.productId]
  · simp [HANDLERS.categoryId]
  · simp [HANDLERS.brandId]
  · simp [HANDLERS.selectedItemId]
  · simp [HANDLERS.productId, h, jsStringOf]
  · simp [HANDLERS.categoryId, h, jsStringOf]
  · simp [HANDLERS.brandId, h, jsStringOf]
  · simp [HANDLERS.selectedItemId, h, jsStringOf]
  · simp [HANDLERS.productId, h, jsStringOf, idStr]

/-- Witness for C5 on `bagColor`, whose numeric `productId` is `123`. -/
theorem c5_identifier_handlers_witness :
    HANDLERS.productId bagColor { id := Ident.str "123" } = true ∧
    HANDLERS.selectedItemId bagColor { id := Ident.str "i1" } = true := by
  have t := c5_identifier_handlers bagColor { id := Ident.str "123" }
    (Ident.str "i1") 123
  exact ⟨t.2.2.2.2.2.2.2.2 rfl, t.2.2.2.2.2.2.2.1 rfl⟩

/-- C6: `specificationProperties` finds the (first) property whose name equals
`args.name`; when none exists it returns `false`; when `args.value` is
omitted it returns `true` (the property exists); otherwise it returns `true`
iff `args.value` (as a string) is among that property's values. -/
theorem c6_specificationProperties (values : ContextValues) (args : SpecArgs) :
    (((values.specificationProperties.getD []).find? fun q =>
        identEq q.name args.name) = none →
      HANDLERS.specificationProperties values args = false) ∧
    (∀ p, ((values.specificationProperties.getD []).find? fun q =>
        identEq q.name args.name) = some p →
      args.value = none →
      HANDLERS.specificationProperties values args = true) ∧
    (∀ p v, ((values.specificationProperties.getD []).find? fun q =>
        identEq q.name args.name) = some p →
      args.value = some v →
      (HANDLERS.specificationProperties values args = true ↔
        idStr v ∈ p.values)) := by
  cases hsp : values.specificationProperties with
  | none =>
    refine ⟨fun _ => ?_, fun p hp _ => ?_, fun p v hp _ => ?_⟩
    · simp [HANDLERS.specificationProperties, hsp]
    · simp [hsp] at hp
    · simp [hsp] at hp
  | some props =>
    refine ⟨fun h => ?_, fun p hp hv => ?_, fun p v hp hv => ?_⟩
    · simp only [hsp, Option.getD_some] at h
      simp [HANDLERS.specificationProperties, hsp, h]
    · simp only [hsp, Option.getD_some] at hp
      simp [HANDLERS.specificationProperties, hsp, hp, hv]
    · simp only [hsp, Option.getD_some] at hp
      simp [HANDLERS.specificationProperties, hsp, hp, hv, List.elem_iff]

/-- Witness for C6: no property named `size` exists in `bagColor` (false);
the property `color` exists (true with value omitted); `red` is among the
values of `color` (true with a value). -/
theorem c6_specificationProperties_witness :
    HANDLERS.specificationProperties bagColor
      { name := Ident.str "size", value := none } = false ∧
    HANDLERS.specificationProperties bagColor
      { name := Ident.str "color", value := none } = true ∧
    HANDLERS.specificationProperties bagColor
      { name := Ident.str "color", value := some (Ident.str "red") } = true := by
  refine ⟨?_, ?_, ?_⟩
  · exact (c6_specificationProperties bagColor
      { name := Ident.str "size", value := none }).1 rfl
  · exact (c6_specificationProperties bagColor
      { name := Ident.str "color", value := none }).2.1
      { name := Ident.str "color", values := ["red", "5"] } rfl rfl
  · exact ((c6_specificationProperties bagColor
      { name := Ident.str "color", value := some (Ident.str "red") }).2.2
      { name := Ident.str "color", values := ["red", "5"] }
      (Ident.str "red") rfl rfl).mpr (by decide)

/-- C7: on a Fact Bag whose sellers list is present, `hasMoreSellersThan`
returns `true` iff the number of sellers whose commercial offer has
`AvailableQuantity > 0` is strictly greater than the quantity argument. -/
theorem c7_hasMoreSellersThan (values : ContextValues) (sellers : List Seller)
    (q : Int) (hs : values.sellers = some sellers) :
    HANDLERS.hasMoreSellersThan values { quantity := q } = true ↔
      ((sellers.filter fun s =>
        s.commertialOffer.AvailableQuantity > 0).length : Int) > q := by
  simp [HANDLERS.hasMoreSellersThan, hs]

/-- Witness for C7: `bagColor` has exactly three available sellers, so the
handler is `true` for quantity 2 and `false` for quantity 3. -/
theorem c7_hasMoreSellersThan_witness :
    HANDLERS.hasMoreSellersThan bagColor { quantity := 2 } = true ∧
    HANDLERS.hasMoreSellersThan bagColor { quantity := 3 } = false := by
  constructor
  · exact (c7_hasMoreSellersThan bagColor sellersThree 2 rfl).mpr (by decide)
  · have t := c7_hasMoreSellersThan bagColor sellersThree 3 rfl
    cases hb : HANDLERS.hasMoreSellersThan bagColor { quantity := 3 } with
    | false => rfl
    | true => exact absurd (t.mp hb) (by decide)

/-- C8: `sellerId` returns `true` exactly when some seller with
`AvailableQuantity > 0` has its id in `args.ids`; an unavailable seller with
a matching id never makes it `true` (and an absent sellers list yields
`undefined`, which is not `true`). -/
theorem c8_sellerId (values : ContextValues) (args : SellerIdArgs) :
    HANDLERS.sellerId values args = some true ↔
      ∃ s ∈ values.sellers.getD [],
        s.commertialOffer.AvailableQuantity > 0 ∧ s.sellerId ∈ args.ids := by
  cases hs : values.sellers with
  | none => simp [HANDLERS.sellerId, hs]
  | some sellers =>
    simp only [HANDLERS.sellerId, hs, Option.getD_some, Option.some_inj]
    rw [List.any_eq_true]
    constructor
    · rintro ⟨s, hmem, hids⟩
      rw [List.mem_filter] at hmem
      exact ⟨s, hmem.1, by simpa using hmem.2, List.elem_iff.mp hids⟩
    · rintro ⟨s, hmem, hav, hids⟩
      exact ⟨s, List.mem_filter.mpr ⟨hmem, by simpa using hav⟩,
        List.elem_iff.mpr hids⟩

/-- Witness for C8: seller `s1` of `bagColor` is available, so querying for
`s1` succeeds. -/
theorem c8_sellerId_witness :
    HANDLERS.sellerId bagColor { ids := ["s1"] } = some true :=
  (c8_sellerId bagColor { ids := ["s1"] }).mpr
    ⟨sellerS1, by decide, by decide, by decide⟩

/-- C10: in `specificationProperties` the property name is compared with
strict equality (a property whose name is the numeric form of a string
argument never matches, even though their string forms agree), while the
value membership test coerces the argument to a string first; the identifier
handlers, by contrast, coerce both sides, so the same numeric/string pair
matches there. -/
theorem c10_spec_name_strict_value_coerced (values : ContextValues) (k : Int)
    (vals : List String) (v : Ident) (nm : Ident) :
    (values.specificationProperties =
        some [{ name := Ident.num k, values := vals }] →
      HANDLERS.specificationProperties values
        { name := Ident.str (toString k), value := none } = false) ∧
    (values.specificationProperties = some [{ name := nm, values := vals }] →
      (HANDLERS.specificationProperties values
          { name := nm, value := some v } = true ↔ idStr v ∈ vals)) ∧
    (values.productId = some (Ident.num k) →
      HANDLERS.productId values { id := Ident.str (toString k) } = true) := by
  refine ⟨fun h => ?_, fun h => ?_, fun h => ?_⟩
  · simp [HANDLERS.specificationProperties, h, List.find?, identEq]
  · simp [HANDLERS.specificationProperties, h, List.find?, identEq_refl,
      List.elem_iff]
  · simp [HANDLERS.productId, h, jsStringOf, idStr]

/-- Witness for C10: the property named `color` does not match when its name
is stored as the number 5 and queried as the string `5`; the value `5` given
as a number matches the string value, and the numeric product id matches its
string form. -/
theorem c10_spec_name_strict_value_coerced_witness :
    HANDLERS.specificationProperties bagNumericName
      { name := Ident.str "7", value := none } = false ∧
    HANDLERS.specificationProperties bagColor
      { name := Ident.str "color", value := some (Ident.num 5) } = true ∧
    HANDLERS.productId bagColor { id := Ident.str "123" } = true := by
  refine ⟨?_, ?_, ?_⟩
  · exact (c10_spec_name_strict_value_coerced bagNumericName 7 ["x"]
      (Ident.str "x") (Ident.str "x")).1 rfl
  · exact ((c10_spec_name_strict_value_coerced bagColor 7 ["red", "5"]
      (Ident.num 5) (Ident.str "color")).2.1 rfl).mpr (by decide)
  · exact (c10_spec_name_strict_value_coerced bagColor 123 ["x"]
      (Ident.str "x") (Ident.str "x")).2.2 rfl
